import Mathlib

/-!
Shallow embedding of the ibase-chatbot PDF processing core
(`src/pdf_processor.py`) and the upload handler (`src/app.py`),
with theorems checking the specification's claims about them.

Python integers are modelled as `Nat` (the chunk configuration values are
word counts); where Python computes a possibly-negative stride we compute
in `Int` explicitly.  Python exceptions are modelled with `Except`:
a function that can raise returns `Except PyError α`.  The two PDF
extraction backends (PyMuPDF, pdfplumber) perform file I/O and are
modelled as oracle parameters `String → Except PyError String`; the
try/except control flow around them (lines 91-94 of pdf_processor.py)
is embedded faithfully.
-/

/-- Python exception values: a generic `Exception(msg)` or a
`ValueError(msg)` (the latter is what `range` raises on a zero step). -/
inductive PyError where
  | exception (msg : String)
  | valueError (msg : String)
deriving Repr, DecidableEq

/-- The chunker configuration held by `PDFProcessor` (lines 11-13):
`self.chunk_size` and `self.chunk_overlap`. -/
structure PDFProcessor where
  chunk_size : Nat
  chunk_overlap : Nat
deriving Repr, DecidableEq

/-- `PDFProcessor.__init__` (lines 11-13): plain field assignment, with
no validation of any kind. -/
def PDFProcessor.init (chunk_size : Nat) (chunk_overlap : Nat) : PDFProcessor :=
  { chunk_size := chunk_size, chunk_overlap := chunk_overlap }

/-- One chunk dictionary as built at lines 71-76 of `chunk_text`:
keys `text`, `chunk_index`, `start_char`, `word_count`. -/
structure Chunk where
  text : String
  chunk_index : Nat
  start_char : Nat
  word_count : Nat
deriving Repr, DecidableEq

/-- The result dictionary of `process_pdf` (lines 99-105). -/
structure ProcessingResult where
  filename : String
  full_text : String
  chunks : List Chunk
  total_chunks : Nat
  total_chars : Nat
deriving Repr, DecidableEq

/-- Worker for `pySplit`: scans the characters, accumulating the current
word (in reverse) and emitting it when a whitespace character or the end
of the input is reached; whitespace runs and leading/trailing whitespace
produce no empty words. -/
def pyWords : List Char → List Char → List String
  | [], acc => if acc = [] then [] else [String.mk acc.reverse]
  | c :: cs, acc =>
    if c.isWhitespace then
      (if acc = [] then [] else [String.mk acc.reverse]) ++ pyWords cs []
    else
      pyWords cs (c :: acc)

/-- Python `text.split()` (line 65): split on runs of whitespace,
discarding empty pieces. -/
def pySplit (t : String) : List String :=
  pyWords t.data []

/-- The loop body of `chunk_text` (lines 67-76) for a positive stride:
Python `for i in range(0, len(words), stride)` visits
`i = k * stride` for `k < ceil(len(words) / stride)`; each iteration
takes `words[i : i + size]`, joins with single spaces, and appends a
chunk whose `chunk_index` is the number of chunks appended so far (`k`)
and whose `start_char` is `i`. -/
def mkChunks (words : List String) (size stride : Nat) : List Chunk :=
  (List.range ((words.length + stride - 1) / stride)).map (fun k =>
    let i := k * stride
    let chunk_words := (words.drop i).take size
    { text := " ".intercalate chunk_words
      chunk_index := k
      start_char := i
      word_count := chunk_words.length })

/-- `PDFProcessor.chunk_text` (lines 54-78).  The Python loop header
`range(0, len(words), self.chunk_size - self.chunk_overlap)` computes the
step as a (possibly negative or zero) integer: a zero step makes `range`
raise `ValueError`, a negative step makes `range(0, n, step)` empty for
any `n ≥ 0`, and a positive step yields the windowed chunks. -/
def chunk_text (self : PDFProcessor) (text : String) : Except PyError (List Chunk) :=
  let words := pySplit text
  let step : Int := (self.chunk_size : Int) - (self.chunk_overlap : Int)
  if step = 0 then Except.error (.valueError "range() arg 3 must not be zero")
  else if step < 0 then Except.ok []
  else Except.ok (mkChunks words self.chunk_size step.toNat)

/-- The chunk list `chunk_text` returns when it does not raise
(empty when it raises); convenient for stating chunk-level claims. -/
def chunksOf (self : PDFProcessor) (text : String) : List Chunk :=
  (chunk_text self text).toOption.getD []

/-- Worker for `pyBasename`: keeps the characters seen since the last
`'/'` (in reverse). -/
def lastComponent : List Char → List Char → List Char
  | [], acc => acc.reverse
  | c :: cs, acc =>
    if c = '/' then lastComponent cs [] else lastComponent cs (c :: acc)

/-- Python `os.path.basename` (line 100), for POSIX paths: everything
after the last path separator. -/
def pyBasename (p : String) : String :=
  String.mk (lastComponent p.data [])

/-- Lines 91-94 of `process_pdf`: `try: text = extract_text_pymupdf(...)`
`except: text = extract_text_pdfplumber(...)`.  The backends are oracle
parameters; the bare `except` catches any error from the primary, and an
error from the fallback propagates. -/
def extractText (primary fallback : String → Except PyError String)
    (pdf_path : String) : Except PyError String :=
  match primary pdf_path with
  | Except.ok t => Except.ok t
  | Except.error _ => fallback pdf_path

/-- `extractText` instrumented with how many times each backend was
invoked, as `(result, primaryCalls, fallbackCalls)`. -/
def extractTrace (primary fallback : String → Except PyError String)
    (p : String) : Except PyError String × Nat × Nat :=
  match primary p with
  | Except.ok t => (Except.ok t, 1, 0)
  | Except.error _ => (fallback p, 1, 1)

/-- `PDFProcessor.process_pdf` (lines 80-105): extract (with fallback),
chunk, and assemble the result dictionary.  An error from extraction or
from `chunk_text` propagates to the caller with no partial result. -/
def process_pdf (primary fallback : String → Except PyError String)
    (self : PDFProcessor) (pdf_path : String) : Except PyError ProcessingResult :=
  match extractText primary fallback pdf_path with
  | Except.error e => Except.error e
  | Except.ok text =>
    match chunk_text self text with
    | Except.error e => Except.error e
    | Except.ok chunks =>
      Except.ok
        { filename := pyBasename pdf_path
          full_text := text
          chunks := chunks
          total_chunks := chunks.length
          total_chars := text.length }

/-- FastAPI/starlette `HTTPException(status_code, detail)`. -/
structure HTTPException where
  status_code : Nat
  detail : String
deriving Repr, DecidableEq

/-- `str(e)` for a starlette `HTTPException`, which renders as
`f"{status_code}: {detail}"`. -/
def httpExceptionStr (e : HTTPException) : String :=
  toString e.status_code ++ ": " ++ e.detail

/-- The success payload of `upload_pdf` (app.py lines 67-72). -/
structure UploadResponse where
  message : String
  filename : String
  user_id : String
  status : String
deriving Repr, DecidableEq

/-- Python `filename.endswith(suffix)` (app.py line 57): whether the
characters of `suffix` are a suffix of the characters of `s`. -/
def pyEndsWith (s suffix : String) : Bool :=
  List.isSuffixOf suffix.data s.data

/-- The body of the `try` block of `upload_pdf` (app.py lines 55-72):
validates the filename extension, raising `HTTPException(400, ...)` for a
non-PDF filename, and otherwise returns the placeholder success payload. -/
def upload_pdf_try (filename user_id : String) : Except HTTPException UploadResponse :=
  if !(pyEndsWith filename ".pdf") then
    Except.error { status_code := 400, detail := "Only PDF files allowed" }
  else
    Except.ok
      { message := "PDF uploaded successfully"
        filename := filename
        user_id := user_id
        status := "processed" }

/-- `upload_pdf` (app.py lines 49-74): the `except Exception as e` clause
catches every exception raised inside the `try` block — including the
`HTTPException(400, ...)` raised by the validation — and re-raises
`HTTPException(status_code=500, detail=str(e))`. -/
def upload_pdf (filename user_id : String) : Except HTTPException UploadResponse :=
  match upload_pdf_try filename user_id with
  | Except.ok r => Except.ok r
  | Except.error e =>
    Except.error { status_code := 500, detail := httpExceptionStr e }

/-- Extraction oracle that always succeeds with the text `"a b"`. -/
def oracleOkAB : String → Except PyError String := fun _ => Except.ok "a b"

/-- Extraction oracle that always succeeds with the empty string. -/
def oracleOkEmpty : String → Except PyError String := fun _ => Except.ok ""

/-- Extraction oracle that always raises `Exception("boom")`. -/
def oracleFailBoom : String → Except PyError String :=
  fun _ => Except.error (.exception "boom")

/-- Extraction oracle that always raises `Exception("bust")`. -/
def oracleFailBust : String → Except PyError String :=
  fun _ => Except.error (.exception "bust")

/-- The result record `process_pdf` produces for the path
`"dir/doc.pdf"` when extraction yields `"a b"` and the configuration is
`chunk_size = 4`, `chunk_overlap = 2`. -/
def sampleResult : ProcessingResult :=
  { filename := "doc.pdf"
    full_text := "a b"
    chunks := [{ text := "a b", chunk_index := 0, start_char := 0, word_count := 2 }]
    total_chunks := 1
    total_chars := 3 }

/-- C4: on text `"a b c d e f g h"` with `chunk_size = 4` and
`chunk_overlap = 2`, `chunk_text` emits exactly the four chunks
`"a b c d"` (index 0, offset 0), `"c d e f"` (index 1, offset 2),
`"e f g h"` (index 2, offset 4) and `"g h"` (index 3, offset 6). -/
theorem chunk_concrete_example :
    chunk_text ⟨4, 2⟩ "a b c d e f g h" = Except.ok
      [ { text := "a b c d", chunk_index := 0, start_char := 0, word_count := 4 },
        { text := "c d e f", chunk_index := 1, start_char := 2, word_count := 4 },
        { text := "e f g h", chunk_index := 2, start_char := 4, word_count := 4 },
        { text := "g h", chunk_index := 3, start_char := 6, word_count := 2 } ] := by
  rfl

/-- C2: the constructor performs no validation, so a chunker with
`chunk_overlap ≥ chunk_size` is built without any `ConfigError` (no such
error exists in the code) and chunking does run with a non-positive
stride: with overlap equal to size the `range` call raises `ValueError`
at chunking time, and with overlap greater than size `chunk_text`
silently returns no chunks at all. -/
theorem init_no_validation :
    PDFProcessor.init 4 4 = { chunk_size := 4, chunk_overlap := 4 }
    ∧ chunk_text (PDFProcessor.init 4 4) "a b"
        = Except.error (.valueError "range() arg 3 must not be zero")
    ∧ chunk_text (PDFProcessor.init 4 6) "a b" = Except.ok [] := by
  refine ⟨rfl, rfl, rfl⟩

/-- With a valid configuration (`overlap < size`) the stride is positive
and `chunk_text` reduces to the windowed chunk construction. -/
theorem chunk_text_eq_pos (S O : Nat) (t : String) (hO : O < S) :
    chunk_text ⟨S, O⟩ t = Except.ok (mkChunks (pySplit t) S (S - O)) := by
  have h0 : ¬((S : Int) - (O : Int) = 0) := by omega
  have h1 : ¬((S : Int) - (O : Int) < 0) := by omega
  have h2 : ((S : Int) - (O : Int)).toNat = S - O := by omega
  simp only [chunk_text, h0, h1, if_false, h2]

/-- `chunksOf` agrees with `mkChunks` for a valid configuration. -/
theorem chunksOf_pos (S O : Nat) (t : String) (hO : O < S) :
    chunksOf ⟨S, O⟩ t = mkChunks (pySplit t) S (S - O) := by
  rw [chunksOf, chunk_text_eq_pos S O t hO]
  rfl

/-- The number of chunks is the ceiling of `wordCount / stride`. -/
theorem mkChunks_length (ws : List String) (S st : Nat) :
    (mkChunks ws S st).length = (ws.length + st - 1) / st := by
  simp [mkChunks]

/-- The `chunk_index` fields of the emitted chunks are `0, 1, 2, …` in
emission order. -/
theorem mkChunks_map_index (ws : List String) (S st : Nat) :
    (mkChunks ws S st).map Chunk.chunk_index = List.range (mkChunks ws S st).length := by
  simp only [mkChunks, List.length_map, List.length_range]
  rw [List.map_map]
  exact List.map_id _

/-- The `start_char` fields of the emitted chunks are
`0, st, 2*st, …` in emission order. -/
theorem mkChunks_map_start (ws : List String) (S st : Nat) :
    (mkChunks ws S st).map Chunk.start_char
      = (List.range (mkChunks ws S st).length).map (fun k => k * st) := by
  simp only [mkChunks, List.length_map, List.length_range]
  rw [List.map_map]
  rfl

/-- Arithmetic facts about the iteration count `n = ⌈N / st⌉` of the
chunk loop, for nonempty input: it is positive, the last start offset
`(n-1)*st` lies strictly below `N`, and `N` is within one stride of it. -/
theorem ceil_div_facts (N st : Nat) (hst : 0 < st) (hN : 0 < N) :
    0 < (N + st - 1) / st
    ∧ ((N + st - 1) / st - 1) * st < N
    ∧ N ≤ ((N + st - 1) / st - 1) * st + st := by
  have h1 : st * ((N + st - 1) / st) + (N + st - 1) % st = N + st - 1 :=
    Nat.div_add_mod _ _
  have h2 : (N + st - 1) % st < st := Nat.mod_lt _ hst
  rcases Nat.eq_zero_or_pos ((N + st - 1) / st) with h0 | h0
  · rw [h0] at h1
    simp at h1
    omega
  · obtain ⟨m, hm⟩ : ∃ m, (N + st - 1) / st = m + 1 :=
      ⟨(N + st - 1) / st - 1, by omega⟩
    rw [hm] at h1 ⊢
    have e1 : st * (m + 1) = st * m + st := by ring
    have e2 : (m + 1 - 1) * st = st * m := by simp [Nat.mul_comm]
    rw [e1] at h1
    rw [e2]
    refine ⟨Nat.succ_pos m, ?_, ?_⟩
    · revert h1
      generalize st * m = q
      intro h1
      omega
    · revert h1
      generalize st * m = q
      intro h1
      omega

/-- When the word count is positive but at most one stride, the loop
runs exactly once. -/
theorem ceil_div_one (N st : Nat) (hst : 0 < st) (hN : 0 < N) (hle : N ≤ st) :
    (N + st - 1) / st = 1 := by
  obtain ⟨h0, h1, _⟩ := ceil_div_facts N st hst hN
  by_contra hne
  have h3 : 2 ≤ (N + st - 1) / st := by omega
  have h4 : st ≤ ((N + st - 1) / st - 1) * st := by
    calc st = 1 * st := (Nat.one_mul st).symm
    _ ≤ ((N + st - 1) / st - 1) * st := Nat.mul_le_mul_right st (by omega)
  have h5 : st < N := lt_of_le_of_lt h4 h1
  omega

/-- C1 counterexample: the text `"a b c d"` has 4 words and `4 ≤
chunk_size = 4`, yet with `chunk_overlap = 2` the loop runs at
`i = 0` and `i = 2` and `chunk_text` emits two chunks, not one. -/
theorem chunk_single_small_cex :
    (pySplit "a b c d").length = 4
    ∧ chunk_text ⟨4, 2⟩ "a b c d"
        = Except.ok
            [ { text := "a b c d", chunk_index := 0, start_char := 0, word_count := 4 },
              { text := "c d", chunk_index := 1, start_char := 2, word_count := 2 } ] :=
  ⟨rfl, rfl⟩

/-- C1 (amended): for a valid configuration and a text with `N` words
where `1 ≤ N ≤ chunk_size − chunk_overlap` (the stride), `chunk_text`
yields exactly one chunk containing all `N` words with `word_count = N`,
and `process_pdf` on such a text reports exactly 1 chunk. -/
theorem chunk_single_when_text_fits_stride
    (S O : Nat) (t : String)
    (primary fallback : String → Except PyError String) (path : String)
    (hO : O < S) (hpos : 0 < (pySplit t).length)
    (hfit : (pySplit t).length ≤ S - O)
    (hext : primary path = Except.ok t) :
    chunk_text ⟨S, O⟩ t
      = Except.ok
          [ { text := " ".intercalate (pySplit t), chunk_index := 0,
              start_char := 0, word_count := (pySplit t).length } ]
    ∧ (process_pdf primary fallback ⟨S, O⟩ path).map ProcessingResult.total_chunks
        = Except.ok 1 := by
  have hst : 0 < S - O := by omega
  have hone : ((pySplit t).length + (S - O) - 1) / (S - O) = 1 :=
    ceil_div_one _ _ hst hpos hfit
  have hmk : mkChunks (pySplit t) S (S - O)
      = [ { text := " ".intercalate (pySplit t), chunk_index := 0,
            start_char := 0, word_count := (pySplit t).length } ] := by
    unfold mkChunks
    rw [hone]
    have htake : (pySplit t).take S = pySplit t :=
      List.take_of_length_le (by omega)
    have hr : List.range 1 = [0] := rfl
    simp [hr, htake]
    all_goals omega
  have hchunk : chunk_text ⟨S, O⟩ t
      = Except.ok
          [ { text := " ".intercalate (pySplit t), chunk_index := 0,
              start_char := 0, word_count := (pySplit t).length } ] := by
    rw [chunk_text_eq_pos S O t hO, hmk]
  have hex : extractText primary fallback path = Except.ok t := by
    unfold extractText
    rw [hext]
  refine ⟨hchunk, ?_⟩
  simp [process_pdf, hex, hchunk, Except.map]

/-- C1 witness: with `chunk_size = 4`, `chunk_overlap = 2` and the
two-word text `"a b"`, the single emitted chunk is `"a b"` and
`process_pdf` reports one chunk. -/
theorem chunk_single_when_text_fits_stride_witness :
    chunk_text ⟨4, 2⟩ "a b"
      = Except.ok
          [ { text := " ".intercalate (pySplit "a b"), chunk_index := 0,
              start_char := 0, word_count := (pySplit "a b").length } ]
    ∧ (process_pdf oracleOkAB oracleFailBust ⟨4, 2⟩ "doc.pdf").map
        ProcessingResult.total_chunks = Except.ok 1 :=
  chunk_single_when_text_fits_stride 4 2 "a b" oracleOkAB oracleFailBust "doc.pdf"
    (by decide) (by decide) (by decide) rfl

/-- C7: for any input string, a valid configuration
(`chunk_overlap < chunk_size`) makes `chunk_text` return normally:
the stride is positive, `range` accepts it, and the clamping slice
`words[i : i + size]` and the joins are always safe, so no error is
ever produced. -/
theorem chunk_text_never_raises (S O : Nat) (t : String) (hO : O < S) :
    (chunk_text ⟨S, O⟩ t).isOk = true := by
  rw [chunk_text_eq_pos S O t hO]
  rfl

/-- C7 witness: a valid configuration on a sample text returns normally. -/
theorem chunk_text_never_raises_witness :
    (chunk_text ⟨4, 2⟩ "hello world").isOk = true :=
  chunk_text_never_raises 4 2 "hello world" (by decide)

/-- C8: when the extracted text is the empty string (and the
configuration is valid), `process_pdf` succeeds with zero chunks, zero
characters and an empty chunk list — empty input is not an error. -/
theorem process_empty_text (primary fallback : String → Except PyError String)
    (self : PDFProcessor) (p : String)
    (hO : self.chunk_overlap < self.chunk_size)
    (hext : extractText primary fallback p = Except.ok "") :
    process_pdf primary fallback self p
      = Except.ok
          { filename := pyBasename p, full_text := "", chunks := [],
            total_chunks := 0, total_chars := 0 } := by
  obtain ⟨S, O⟩ := self
  replace hO : O < S := hO
  have hm : mkChunks (pySplit "") S (S - O) = [] := by
    unfold mkChunks
    have h0 : ((pySplit "").length + (S - O) - 1) / (S - O) = 0 := by
      have hlen : (pySplit "").length = 0 := rfl
      rw [hlen]
      exact Nat.div_eq_of_lt (by omega)
    rw [h0]
    rfl
  have hchunk : chunk_text ⟨S, O⟩ "" = Except.ok [] := by
    rw [chunk_text_eq_pos S O "" hO, hm]
  simp [process_pdf, hext, hchunk]

/-- C8 witness: a document extracting to the empty string yields the
empty result record. -/
theorem process_empty_text_witness :
    process_pdf oracleOkEmpty oracleFailBust ⟨4, 2⟩ "a/b.pdf"
      = Except.ok
          { filename := "b.pdf", full_text := "", chunks := [],
            total_chunks := 0, total_chars := 0 } :=
  process_empty_text oracleOkEmpty oracleFailBust ⟨4, 2⟩ "a/b.pdf" (by decide) rfl

/-- C3: extraction always calls the primary backend exactly once; the
fallback is attempted exactly once if and only if the primary raises;
and when both raise, `process_pdf` propagates the fallback's error with
no partial result. -/
theorem extract_fallback_policy (primary fallback : String → Except PyError String)
    (self : PDFProcessor) (p : String) :
    (extractTrace primary fallback p).2.1 = 1
    ∧ ((extractTrace primary fallback p).2.2 = if (primary p).isOk then 0 else 1)
    ∧ (extractTrace primary fallback p).1 = extractText primary fallback p
    ∧ (∀ e1 e2, primary p = Except.error e1 → fallback p = Except.error e2 →
        process_pdf primary fallback self p = Except.error e2) := by
  refine ⟨?_, ?_, ?_, ?_⟩
  · cases h : primary p <;> simp [extractTrace, h]
  · cases h : primary p <;> simp [extractTrace, h, Except.isOk, Except.toBool]
  · cases h : primary p <;> simp [extractTrace, extractText, h]
  · intro e1 e2 he1 he2
    have hex : extractText primary fallback p = Except.error e2 := by
      unfold extractText
      rw [he1, he2]
    simp [process_pdf, hex]

/-- C3 witness: with both backends raising (`boom` then `bust`),
`process_pdf` reports the fallback's error `bust`. -/
theorem extract_fallback_policy_witness :
    process_pdf oracleFailBoom oracleFailBust ⟨4, 2⟩ "doc.pdf"
      = Except.error (.exception "bust") :=
  (extract_fallback_policy oracleFailBoom oracleFailBust ⟨4, 2⟩ "doc.pdf").2.2.2
    (.exception "boom") (.exception "bust") rfl rfl

/-- Any chunk list `chunk_text` returns has `chunk_index` fields
`0, 1, 2, …` in order. -/
theorem chunk_text_ok_indices (self : PDFProcessor) (t : String) (l : List Chunk)
    (h : chunk_text self t = Except.ok l) :
    l.map Chunk.chunk_index = List.range l.length := by
  obtain ⟨S, O⟩ := self
  rcases Nat.lt_trichotomy O S with hlt | heq | hgt
  · rw [chunk_text_eq_pos S O t hlt] at h
    injection h with h2
    rw [← h2]
    exact mkChunks_map_index (pySplit t) S (S - O)
  · subst heq
    have herr : chunk_text ⟨O, O⟩ t
        = Except.error (.valueError "range() arg 3 must not be zero") := by
      simp [chunk_text]
    rw [herr] at h
    simp at h
  · have hok : chunk_text ⟨S, O⟩ t = Except.ok [] := by
      have h0 : ¬((S : Int) - (O : Int) = 0) := by omega
      have h1 : (S : Int) - (O : Int) < 0 := by omega
      simp [chunk_text, h0, h1]
    rw [hok] at h
    injection h with h2
    rw [← h2]
    rfl

/-- C5: every success record of `process_pdf` satisfies
`total_chunks = length chunks`, `total_chars = length full_text`, and
the `chunk_index` values are exactly `0, 1, 2, …` in emission order. -/
theorem process_result_invariants (primary fallback : String → Except PyError String)
    (self : PDFProcessor) (p : String) (r : ProcessingResult)
    (h : process_pdf primary fallback self p = Except.ok r) :
    r.total_chunks = r.chunks.length
    ∧ r.total_chars = r.full_text.length
    ∧ r.chunks.map Chunk.chunk_index = List.range r.chunks.length := by
  unfold process_pdf at h
  cases hE : extractText primary fallback p with
  | error e =>
    simp only [hE] at h
    exact absurd h (by simp)
  | ok text =>
    simp only [hE] at h
    cases hC : chunk_text self text with
    | error e =>
      simp only [hC] at h
      exact absurd h (by simp)
    | ok chunks =>
      simp only [hC, Except.ok.injEq] at h
      rw [← h]
      exact ⟨rfl, rfl, chunk_text_ok_indices self text chunks hC⟩

/-- C5 witness: concrete success record for extraction yielding `"a b"`
with configuration `(4, 2)`. -/
theorem process_result_invariants_witness :
    sampleResult.total_chunks = sampleResult.chunks.length
    ∧ sampleResult.total_chars = sampleResult.full_text.length
    ∧ sampleResult.chunks.map Chunk.chunk_index
        = List.range sampleResult.chunks.length :=
  process_result_invariants oracleOkAB oracleFailBust ⟨4, 2⟩ "dir/doc.pdf"
    sampleResult rfl

/-- The last element of a map over `List.range`. -/
theorem range_map_getLastD {α : Type} (f : Nat → α) (n : Nat) (d : α) (hn : 0 < n) :
    ((List.range n).map f).getLastD d = f (n - 1) := by
  rw [List.getLastD_eq_getLast?, List.getLast?_eq_getElem?]
  simp [List.getElem?_map, List.length_range, List.getElem?_range, Nat.sub_lt hn]

/-- C6: for a valid configuration, the chunk start offsets are
`0, stride, 2*stride, …` (strictly increasing by `stride =
chunk_size − chunk_overlap`), and the final chunk's end offset
(start plus word count) covers the whole word count of the text. -/
theorem chunk_offsets_stride (S O : Nat) (t : String) (hO : O < S) :
    (chunksOf ⟨S, O⟩ t).map Chunk.start_char
      = (List.range (chunksOf ⟨S, O⟩ t).length).map (fun k => k * (S - O))
    ∧ (chunksOf ⟨S, O⟩ t ≠ [] →
        ((chunksOf ⟨S, O⟩ t).getLastD
            { text := "", chunk_index := 0, start_char := 0, word_count := 0 }).start_char
          + ((chunksOf ⟨S, O⟩ t).getLastD
              { text := "", chunk_index := 0, start_char := 0, word_count := 0 }).word_count
          ≥ (pySplit t).length) := by
  rw [chunksOf_pos S O t hO]
  have hst : 0 < S - O := by omega
  constructor
  · exact mkChunks_map_start (pySplit t) S (S - O)
  · intro hne
    have hN : 0 < (pySplit t).length := by
      by_contra h0
      have hlen0 : (pySplit t).length = 0 := by omega
      apply hne
      have hz : ((pySplit t).length + (S - O) - 1) / (S - O) = 0 := by
        rw [hlen0]
        exact Nat.div_eq_of_lt (by omega)
      unfold mkChunks
      rw [hz]
      rfl
    obtain ⟨hn0, hlast, hwithin⟩ := ceil_div_facts (pySplit t).length (S - O) hst hN
    have hgl : (mkChunks (pySplit t) S (S - O)).getLastD
        { text := "", chunk_index := 0, start_char := 0, word_count := 0 }
        = (fun k =>
            let i := k * (S - O)
            let chunk_words := ((pySplit t).drop i).take S
            { text := " ".intercalate chunk_words
              chunk_index := k
              start_char := i
              word_count := chunk_words.length : Chunk })
          (((pySplit t).length + (S - O) - 1) / (S - O) - 1) := by
      unfold mkChunks
      exact range_map_getLastD _ _ _ hn0
    rw [hgl]
    simp only [List.length_take, List.length_drop]
    have hSO : S - O ≤ S := by omega
    revert hlast hwithin
    generalize (((pySplit t).length + (S - O) - 1) / (S - O) - 1) * (S - O) = q
    intro hlast hwithin
    omega

/-- C6 witness: on `"a b c d e"` with configuration `(4, 2)` the
offsets step by 2 and the last chunk reaches the word count. -/
theorem chunk_offsets_stride_witness :
    (chunksOf ⟨4, 2⟩ "a b c d e").map Chunk.start_char
      = (List.range (chunksOf ⟨4, 2⟩ "a b c d e").length).map (fun k => k * (4 - 2))
    ∧ (chunksOf ⟨4, 2⟩ "a b c d e" ≠ [] →
        ((chunksOf ⟨4, 2⟩ "a b c d e").getLastD
            { text := "", chunk_index := 0, start_char := 0, word_count := 0 }).start_char
          + ((chunksOf ⟨4, 2⟩ "a b c d e").getLastD
              { text := "", chunk_index := 0, start_char := 0, word_count := 0 }).word_count
          ≥ (pySplit "a b c d e").length) :=
  chunk_offsets_stride 4 2 "a b c d e" (by decide)

/-- C9: the `start_char` field of every emitted chunk is the chunk's
start *word* index — dropping that many words from the split text and
taking `chunk_size` words reproduces the chunk's text and word count —
not a character offset into the input string. -/
theorem chunk_start_is_word_offset (S O : Nat) (t : String) (hO : O < S) :
    ∀ c ∈ chunksOf ⟨S, O⟩ t,
      c.text = " ".intercalate (((pySplit t).drop c.start_char).take S)
      ∧ c.word_count = (((pySplit t).drop c.start_char).take S).length := by
  rw [chunksOf_pos S O t hO]
  intro c hc
  unfold mkChunks at hc
  rw [List.mem_map] at hc
  obtain ⟨k, hk, rfl⟩ := hc
  exact ⟨rfl, rfl⟩

/-- C9 witness: in `"aa bb cc dd ee"` with configuration `(4, 2)`, the
chunk `"cc dd ee"` carries `start_char = 2`: the index of its first
word, not the character offset (which would be 6). -/
theorem chunk_start_is_word_offset_witness :
    (Chunk.mk "cc dd ee" 1 2 3).text
      = " ".intercalate (((pySplit "aa bb cc dd ee").drop
          (Chunk.mk "cc dd ee" 1 2 3).start_char).take 4)
    ∧ (Chunk.mk "cc dd ee" 1 2 3).word_count
      = (((pySplit "aa bb cc dd ee").drop
          (Chunk.mk "cc dd ee" 1 2 3).start_char).take 4).length :=
  chunk_start_is_word_offset 4 2 "aa bb cc dd ee" (by decide)
    (Chunk.mk "cc dd ee" 1 2 3) (by decide)

/-- C10: for any filename not ending in `".pdf"`, `upload_pdf` raises
`HTTPException` with status 500 — never 400 — because the 400 raised
inside the `try` block is caught by the generic handler and rewrapped
as a 500 whose detail is the string of the 400 error. -/
theorem upload_nonpdf_rewrapped_500 (filename user_id : String)
    (h : pyEndsWith filename ".pdf" = false) :
    upload_pdf filename user_id
      = Except.error { status_code := 500, detail := "400: Only PDF files allowed" } := by
  have htry : upload_pdf_try filename user_id
      = Except.error { status_code := 400, detail := "Only PDF files allowed" } := by
    unfold upload_pdf_try
    rw [h]
    rfl
  unfold upload_pdf
  rw [htry]
  rfl

/-- C10 witness: uploading `"doc.txt"` yields a 500 wrapping the 400
message. -/
theorem upload_nonpdf_rewrapped_500_witness :
    upload_pdf "doc.txt" "u1"
      = Except.error { status_code := 500, detail := "400: Only PDF files allowed" } :=
  upload_nonpdf_rewrapped_500 "doc.txt" "u1" rfl
